import Mathlib

/-!
Verification of the DESY HTCondor example framework
(`examples/htcondor_at_desy/analysis/framework.py`).

The file shallowly embeds the Python module: the process environment is a
function `String → Option String` (modelling `os.getenv`), the job
configuration object handed to `htcondor_job_config` is a record holding the
`render_variables` dictionary and the `custom_content` directive list
(all remaining fields are abstracted into a type parameter so that frame
properties can be stated), and posix `os.path.join` / `os.path.isabs` are
embedded directly from their documented semantics.
-/

namespace DESY

/-- The process environment, as queried by `os.getenv`: a total map from
variable names to an optional value (`none` models an unset variable /
Python `None`). -/
abbrev Env := String → Option String

/-- Models posix `os.path.isabs`: a path is absolute iff it starts with the
separator `/` (stated on the underlying character list, which is what
`str.startswith("/")` inspects). -/
def osIsAbs (s : String) : Bool := s.data.head? == some '/'

/-- Whether a path ends with the separator, as tested by
`path.endswith('/')` inside posix `os.path.join`. -/
def osEndsSep (s : String) : Bool := s.data.getLast? == some '/'

/-- One step of posix `os.path.join`: mirrors CPython `posixpath.join`,
`for b in p: if b.startswith(sep): path = b; elif not path or
path.endswith(sep): path += b; else: path += sep + b`. -/
def joinTwo (a b : String) : String :=
  if osIsAbs b then b
  else if a = "" ∨ osEndsSep a = true then a ++ b
  else a ++ "/" ++ b

/-- Posix `os.path.join(a, *l)`: left fold of `joinTwo` over the remaining
segments. -/
def osPathJoin (a : String) (l : List String) : String := l.foldl joinTwo a

/-- A `Task` instance from the example framework: we record the data the
embedded methods read, namely `self.__class__.__name__` and the `version`
parameter. -/
structure Task where
  className : String
  version : String
deriving DecidableEq, Repr

/-- Errors raised by luigi's parameter resolution machinery. -/
inductive LuigiParamError where
  | missingParameter
deriving DecidableEq, Repr

/-- Instantiation of a `Task`.  The source declares
`version = luigi.Parameter()` with no `default=` argument; luigi's parameter
resolution therefore raises `MissingParameterError` when a task is
instantiated without an explicit version, and otherwise stores the given
value.  The class name is fixed by the inheriting class. -/
def mkTask (className : String) (version? : Option String) :
    Except LuigiParamError Task :=
  match version? with
  | none => .error .missingParameter
  | some v => .ok ⟨className, v⟩

/-- `Task.store_parts`: `return (self.__class__.__name__, self.version)`. -/
def store_parts (t : Task) : String × String := (t.className, t.version)

/-- `Task.local_path`: `parts = (os.getenv("ANALYSIS_DATA_PATH"),) +
self.store_parts() + path; return os.path.join(*parts)`.  When
`ANALYSIS_DATA_PATH` is unset, `os.getenv` returns `None` and
`os.path.join(None, ...)` raises `TypeError`; this is modelled by `none`. -/
def local_path (env : Env) (t : Task) (path : List String) : Option String :=
  match env "ANALYSIS_DATA_PATH" with
  | none => none
  | some d => some (osPathJoin d ((store_parts t).1 :: (store_parts t).2 :: path))

/-- `HTCondorWorkflow.htcondor_output_directory`: returns
`law.LocalDirectoryTarget(self.local_path())`; the target is modelled by the
path it wraps. -/
def htcondor_output_directory (env : Env) (t : Task) : Option String :=
  local_path env t []

/-- The job configuration object passed to `htcondor_job_config`.
`render_variables` is the rendering dictionary (an insertion-ordered
association list; values are `Option String` since Python happily stores the
`None` returned by `os.getenv` for an unset variable), `custom_content` is the
ordered list of extra submit-file directives, and `rest` abstracts every
other field of law's htcondor job config, which the method never touches. -/
structure JobConfig (α : Type) where
  render_variables : List (String × Option String)
  custom_content : List (String × String)
  rest : α

/-- Python dict assignment `m[k] = v`: overwrite in place if the key exists
(keeping insertion order), otherwise append. -/
def setKey : List (String × Option String) → String → Option String →
    List (String × Option String)
  | [], k, v => [(k, v)]
  | (k', v') :: t, k, v =>
    if k' = k then (k, v) :: t else (k', v') :: setKey t k v

/-- Association lookup in the `render_variables` dictionary. -/
def lookupKey : List (String × Option String) → String → Option (Option String)
  | [], _ => none
  | (k', v) :: t, k => if k' = k then some v else lookupKey t k

/-- Whether the directive list contains an entry with the given key. -/
def hasKey (cc : List (String × String)) (k : String) : Bool :=
  cc.any (fun p => p.1 == k)

/-- `HTCondorWorkflow.htcondor_job_config(self, config, job_num, branches)`,
line by line: set the `analysis_path` render variable from
`os.getenv("ANALYSIS_PATH")`, append the CentOS7 `requirements` directive,
append `getenv = true`, append the `on_exit_hold` directive, return the
config.  The `+MaxRuntime` append in the source sits inside a triple-quoted
string literal (commented out), so it contributes nothing. -/
def htcondor_job_config (env : Env) (config : JobConfig α)
    (job_num : Nat) (branches : List Nat) : JobConfig α :=
  let config := { config with
    render_variables :=
      setKey config.render_variables "analysis_path" (env "ANALYSIS_PATH") }
  let config := { config with
    custom_content :=
      config.custom_content ++ [("requirements", "(OpSysAndVer =?= \"CentOS7\")")] }
  let config := { config with
    custom_content := config.custom_content ++ [("getenv", "true")] }
  let config := { config with
    custom_content := config.custom_content ++
      [("on_exit_hold", "(ExitBySignal == True) || (ExitStatus != 0) || (ExitCode != 0)")] }
  config

/-- The three policy-mandated directives appended by `htcondor_job_config`,
in source order. -/
def policyDirectives : List (String × String) :=
  [("requirements", "(OpSysAndVer =?= \"CentOS7\")"),
   ("getenv", "true"),
   ("on_exit_hold", "(ExitBySignal == True) || (ExitStatus != 0) || (ExitCode != 0)")]

/-- Abstract syntax of the HTCondor ClassAd boolean expression used in the
`on_exit_hold` directive. -/
inductive HoldExpr where
  | exitBySignalIsTrue
  | exitStatusNonzero
  | exitCodeNonzero
  | orE (a b : HoldExpr)
deriving DecidableEq, Repr

/-- Concrete syntax of a hold expression, exactly as it appears in the
submit file. -/
def renderHold : HoldExpr → String
  | .exitBySignalIsTrue => "(ExitBySignal == True)"
  | .exitStatusNonzero => "(ExitStatus != 0)"
  | .exitCodeNonzero => "(ExitCode != 0)"
  | .orE a b => renderHold a ++ " || " ++ renderHold b

/-- ClassAd evaluation of a hold expression against the job's exit
information: whether it exited by signal, its exit status and its exit
code. -/
def evalHold (sig : Bool) (status code : Int) : HoldExpr → Bool
  | .exitBySignalIsTrue => sig
  | .exitStatusNonzero => status != 0
  | .exitCodeNonzero => code != 0
  | .orE a b => evalHold sig status code a || evalHold sig status code b

/-- The predicate appended by `htcondor_job_config` (`||` associates to the
left in ClassAds). -/
def onExitHoldExpr : HoldExpr :=
  .orE (.orE .exitBySignalIsTrue .exitStatusNonzero) .exitCodeNonzero

/-- Descriptor-construction failures. -/
inductive DescriptorError where
  | invalidDescriptor
deriving DecidableEq, Repr

/-- One unit of batch work, per the specified data model: identity, resource
requests, executable and output directory. -/
structure JobDescriptor where
  taskName : String
  version : String
  branch : Nat
  cpus : Int
  memory : Int
  max_runtime : ℚ
  executable : String
  output_directory : String

/-- Modelled from the spec: the validating descriptor constructor.  The
parameter machinery that would enforce these constraints
(`law.DurationParameter` and the contrib workflow base class) is part of the
repository but not under `src/`; the spec states that all fields are
validated at construction — max runtime a positive duration, memory/cpu
requests positive, output directory an absolute path — failing with
`InvalidDescriptor` otherwise. -/
def mkJobDescriptor (taskName version : String) (branch : Nat)
    (cpus memory : Int) (max_runtime : ℚ) (executable output_directory : String) :
    Except DescriptorError JobDescriptor :=
  if 0 < max_runtime ∧ 0 < memory ∧ 0 < cpus ∧ osIsAbs output_directory = true then
    .ok ⟨taskName, version, branch, cpus, memory, max_runtime, executable,
      output_directory⟩
  else
    .error .invalidDescriptor

/-- An environment with both analysis variables set to absolute paths. -/
def envAbs : Env := fun k =>
  if k = "ANALYSIS_DATA_PATH" then some "/nfs/dust/analysis/data"
  else if k = "ANALYSIS_PATH" then some "/home/user/analysis"
  else none

/-- An environment in which `ANALYSIS_DATA_PATH` is a relative path. -/
def envRel : Env := fun k =>
  if k = "ANALYSIS_DATA_PATH" then some "data" else none

/-- The empty environment: every variable unset. -/
def envNone : Env := fun _ => none

/-- A fresh job configuration with no render variables and no custom
directives. -/
def config0 : JobConfig Unit := ⟨[], [], ()⟩

/-- A sample task instance. -/
def taskA : Task := ⟨"MyTask", "v1"⟩

/-- A string with a nonempty character list keeps its head, hence its
absoluteness, under appending. -/
theorem osIsAbs_append (a b : String) (h : a.data ≠ []) :
    osIsAbs (a ++ b) = osIsAbs a := by
  cases hd : a.data with
  | nil => exact absurd hd h
  | cons c cs => simp [osIsAbs, String.data_append, hd]

/-- An absolute path has a nonempty character list. -/
theorem osIsAbs_data_ne_nil {a : String} (h : osIsAbs a = true) : a.data ≠ [] := by
  intro hnil
  simp [osIsAbs, hnil] at h

/-- `joinTwo` keeps an absolute accumulator absolute. -/
theorem osIsAbs_joinTwo {a : String} (b : String) (h : osIsAbs a = true) :
    osIsAbs (joinTwo a b) = true := by
  have hne : a.data ≠ [] := osIsAbs_data_ne_nil h
  unfold joinTwo
  split
  · assumption
  · split
    · rw [osIsAbs_append a b hne]; exact h
    · have hne2 : (a ++ "/").data ≠ [] := by
        simp [String.data_append, hne]
      rw [osIsAbs_append (a ++ "/") b hne2, osIsAbs_append a "/" hne]
      exact h

/-- `os.path.join` starting from an absolute path yields an absolute path,
whatever the remaining segments are. -/
theorem osIsAbs_osPathJoin (l : List String) (a : String) (h : osIsAbs a = true) :
    osIsAbs (osPathJoin a l) = true := by
  induction l generalizing a with
  | nil => exact h
  | cons b t ih => exact ih (joinTwo a b) (osIsAbs_joinTwo b h)

/-- Looking up a key right after a dict assignment returns the assigned
value. -/
theorem lookupKey_setKey (m : List (String × Option String)) (k : String)
    (v : Option String) : lookupKey (setKey m k v) k = some v := by
  induction m with
  | nil => simp [setKey, lookupKey]
  | cons p t ih =>
    obtain ⟨k', v'⟩ := p
    by_cases hk : k' = k
    · simp [setKey, hk, lookupKey]
    · simp [setKey, hk, lookupKey, ih]

/-- Claim C1: every rendered job configuration contains the policy-mandated
directives — the CentOS7 `requirements` clause, `getenv = true` and the
`on_exit_hold` policy — as a sublist (hence all present, in that relative
order) of its custom-directive list, whatever directives the incoming
configuration already carries; the source offers no override, so they are
appended unconditionally. -/
theorem htcondor_job_config_policy_sublist {α : Type} (env : Env)
    (config : JobConfig α) (job_num : Nat) (branches : List Nat) :
    policyDirectives.Sublist
      (htcondor_job_config env config job_num branches).custom_content := by
  have h : (htcondor_job_config env config job_num branches).custom_content
      = config.custom_content ++ policyDirectives := by
    simp [htcondor_job_config, policyDirectives]
  rw [h]
  exact List.sublist_append_right _ _

/-- Claim C2: rendering is deterministic — two calls of
`htcondor_job_config` on the same configuration, job number and branch list,
in process environments that agree on the one variable the method reads
(`ANALYSIS_PATH`), produce identical job configurations; in particular two
calls under the same environment agree. -/
theorem htcondor_job_config_deterministic {α : Type} (env1 env2 : Env)
    (config : JobConfig α) (job_num : Nat) (branches : List Nat)
    (h : env1 "ANALYSIS_PATH" = env2 "ANALYSIS_PATH") :
    htcondor_job_config env1 config job_num branches
      = htcondor_job_config env2 config job_num branches := by
  simp [htcondor_job_config, h]

/-- Witness for C2 at a concrete environment and configuration. -/
theorem htcondor_job_config_deterministic_witness :
    htcondor_job_config envAbs config0 0 [] = htcondor_job_config envAbs config0 0 [] :=
  htcondor_job_config_deterministic envAbs envAbs config0 0 [] rfl

/-- Claim C3: `htcondor_job_config` never adds a `+MaxRuntime` directive (the
append is commented out in the source), so a rendered configuration whose
input carried no runtime-cap directive carries none. -/
theorem htcondor_job_config_no_runtime_cap {α : Type} (env : Env)
    (config : JobConfig α) (job_num : Nat) (branches : List Nat)
    (h : hasKey config.custom_content "+MaxRuntime" = false) :
    hasKey (htcondor_job_config env config job_num branches).custom_content
      "+MaxRuntime" = false := by
  simp +decide [htcondor_job_config, hasKey] at h ⊢
  exact h

/-- Witness for C3 on a fresh configuration. -/
theorem htcondor_job_config_no_runtime_cap_witness :
    hasKey config0.custom_content "+MaxRuntime" = false ∧
    hasKey (htcondor_job_config envAbs config0 0 []).custom_content
      "+MaxRuntime" = false :=
  ⟨rfl, htcondor_job_config_no_runtime_cap envAbs config0 0 [] rfl⟩

/-- Claim C4: every rendered configuration contains the `on_exit_hold`
directive whose ClassAd expression — rendered exactly as in the source —
evaluates to true precisely when the job exited by signal, or with a nonzero
exit status, or with a nonzero exit code. -/
theorem htcondor_job_config_on_exit_hold_semantics {α : Type} (env : Env)
    (config : JobConfig α) (job_num : Nat) (branches : List Nat) :
    ("on_exit_hold", renderHold onExitHoldExpr)
      ∈ (htcondor_job_config env config job_num branches).custom_content ∧
    ∀ (sig : Bool) (status code : Int),
      (evalHold sig status code onExitHoldExpr = true ↔
        (sig = true ∨ status ≠ 0 ∨ code ≠ 0)) := by
  constructor
  · have hr : renderHold onExitHoldExpr
        = "(ExitBySignal == True) || (ExitStatus != 0) || (ExitCode != 0)" := rfl
    simp [htcondor_job_config, hr]
  · intro sig status code
    simp [onExitHoldExpr, evalHold, or_assoc]

/-- Claim C5: descriptor construction validates its fields — a non-positive
max runtime makes construction fail with `InvalidDescriptor`, and any
successfully constructed descriptor has a positive max runtime, positive
memory and cpu requests, and an absolute output directory. -/
theorem mkJobDescriptor_validates (taskName version : String) (branch : Nat)
    (cpus memory : Int) (max_runtime : ℚ) (executable output_directory : String) :
    (max_runtime ≤ 0 →
      mkJobDescriptor taskName version branch cpus memory max_runtime executable
        output_directory = .error .invalidDescriptor) ∧
    (∀ d, mkJobDescriptor taskName version branch cpus memory max_runtime executable
        output_directory = .ok d →
      0 < d.max_runtime ∧ 0 < d.memory ∧ 0 < d.cpus ∧
        osIsAbs d.output_directory = true) := by
  constructor
  · intro hmr
    rw [mkJobDescriptor, if_neg]
    rintro ⟨h1, -⟩
    exact absurd h1 (not_lt.mpr hmr)
  · intro d hd
    rw [mkJobDescriptor] at hd
    split at hd
    · rename_i hc
      injection hd with h
      subst h
      exact ⟨hc.1, hc.2.1, hc.2.2.1, hc.2.2.2⟩
    · simp at hd

/-- Witness for C5: a negative runtime is rejected; a valid argument tuple
is accepted and its fields satisfy the constraints. -/
theorem mkJobDescriptor_validates_witness :
    mkJobDescriptor "MyTask" "v1" 0 1 2048 (-1) "bootstrap.sh" "/store"
      = .error .invalidDescriptor ∧
    (0 < (3 : ℚ) ∧ 0 < (2048 : Int) ∧ 0 < (1 : Int) ∧ osIsAbs "/store" = true) :=
  ⟨(mkJobDescriptor_validates "MyTask" "v1" 0 1 2048 (-1) "bootstrap.sh"
      "/store").1 (by norm_num),
   (mkJobDescriptor_validates "MyTask" "v1" 0 1 2048 3 "bootstrap.sh"
      "/store").2 ⟨"MyTask", "v1", 0, 1, 2048, 3, "bootstrap.sh", "/store"⟩
      (by rw [mkJobDescriptor, if_pos]; exact ⟨by norm_num, by norm_num, by norm_num, rfl⟩)⟩

/-- Counterexample for C6: with `ANALYSIS_PATH` unset, rendering does not
fail — it succeeds and stores the missing value (`None`) under
`analysis_path` in the render-variable dictionary. -/
theorem htcondor_job_config_unset_env_injected :
    (htcondor_job_config envNone config0 0 []).render_variables
      = [("analysis_path", none)] := rfl

/-- Claim C6 (amended): at render time the `analysis_path` render variable
is set verbatim to whatever `os.getenv("ANALYSIS_PATH")` returns, with no
non-emptiness validation; rendering never fails on an unset or empty
variable. -/
theorem htcondor_job_config_analysis_path_verbatim {α : Type} (env : Env)
    (config : JobConfig α) (job_num : Nat) (branches : List Nat) :
    lookupKey (htcondor_job_config env config job_num branches).render_variables
      "analysis_path" = some (env "ANALYSIS_PATH") := by
  simpa [htcondor_job_config] using
    lookupKey_setKey config.render_variables "analysis_path" (env "ANALYSIS_PATH")

/-- Counterexample for C7: with `ANALYSIS_DATA_PATH` set to the relative
path `data`, the submission-metadata output directory is the relative path
`data/MyTask/v1`, not an absolute one. -/
theorem htcondor_output_directory_relative_counterexample :
    htcondor_output_directory envRel taskA = some "data/MyTask/v1" ∧
    osIsAbs "data/MyTask/v1" = false := ⟨rfl, rfl⟩

/-- Claim C7 (amended): whenever `ANALYSIS_DATA_PATH` is set to an absolute
path, the output directory built by `htcondor_output_directory` via
`local_path` is defined and absolute. -/
theorem htcondor_output_directory_abs_of_env_abs (env : Env) (t : Task)
    (d : String) (hd : env "ANALYSIS_DATA_PATH" = some d)
    (habs : osIsAbs d = true) :
    (htcondor_output_directory env t).map osIsAbs = some true := by
  simp [htcondor_output_directory, local_path, hd]
  exact osIsAbs_osPathJoin _ _ habs

/-- Witness for C7 (amended) at a concrete absolute environment. -/
theorem htcondor_output_directory_abs_witness :
    (htcondor_output_directory envAbs taskA).map osIsAbs = some true :=
  htcondor_output_directory_abs_of_env_abs envAbs taskA
    "/nfs/dust/analysis/data" rfl rfl

/-- Claim C8: whenever `ANALYSIS_DATA_PATH` is set, `local_path` joins its
value, the task's class name, its version and the given segments in exactly
that order. -/
theorem local_path_join_spec (env : Env) (t : Task) (path : List String)
    (d : String) (hd : env "ANALYSIS_DATA_PATH" = some d) :
    local_path env t path
      = some (osPathJoin d (t.className :: t.version :: path)) := by
  simp [local_path, store_parts, hd]

/-- Witness for C8 at a concrete environment, task and segment list. -/
theorem local_path_join_spec_witness :
    local_path envAbs taskA ["out.txt"]
      = some (osPathJoin "/nfs/dust/analysis/data" ["MyTask", "v1", "out.txt"]) :=
  local_path_join_spec envAbs taskA ["out.txt"] "/nfs/dust/analysis/data" rfl

/-- Claim C9: `htcondor_job_config` only sets the `analysis_path` render
variable and appends the three policy directives to the custom-directive
list, preserving all pre-existing entries in order; every other field of the
configuration is returned unchanged. -/
theorem htcondor_job_config_frame {α : Type} (env : Env) (config : JobConfig α)
    (job_num : Nat) (branches : List Nat) :
    (htcondor_job_config env config job_num branches).rest = config.rest ∧
    (htcondor_job_config env config job_num branches).custom_content
      = config.custom_content ++ policyDirectives ∧
    (htcondor_job_config env config job_num branches).render_variables
      = setKey config.render_variables "analysis_path" (env "ANALYSIS_PATH") := by
  refine ⟨rfl, ?_, rfl⟩
  simp [htcondor_job_config, policyDirectives]

/-- Claim C10: `version = luigi.Parameter()` has no default, so task
instantiation without an explicit version fails with
`MissingParameterError`; every constructed task's `store_parts` is exactly
the pair of its class name and version. -/
theorem mkTask_version_required (className : String) :
    mkTask className none = .error .missingParameter ∧
    ∀ (v : String) (t : Task), mkTask className (some v) = .ok t →
      store_parts t = (className, v) := by
  refine ⟨rfl, ?_⟩
  intro v t ht
  injection ht with h
  subst h
  rfl

/-- Witness for C10 at a concrete class name and version. -/
theorem mkTask_version_required_witness :
    mkTask "MyTask" none = .error .missingParameter ∧
    store_parts ⟨"MyTask", "v1"⟩ = ("MyTask", "v1") :=
  ⟨(mkTask_version_required "MyTask").1,
   (mkTask_version_required "MyTask").2 "v1" ⟨"MyTask", "v1"⟩ rfl⟩

end DESY
